import Mathlib

/-!
Verification of the two-phase compilation orchestrator of the
glimmer-compiler-webpack-plugin (src/index.ts): per-session state reset,
one-shot reseal guard, placeholder rewrite and rebuild coordination,
configuration validation, and bytecode asset emission.

External collaborators (the webpack host protocol, the Bundle facade and
the compiler delegates) are not part of src/index.ts; they are modelled
at their interface boundary, following section 6 of the design document.
All functions of src/index.ts itself are translated directly from the
source.
-/

namespace GlimmerPlugin

/-- Error values (JS Error messages) are modelled as strings. -/
abbrev Err := String

/-- Source text and opaque source objects (webpack-sources Source) are
modelled as strings. -/
abbrev Src := String

/-- Webpack module handle, as used by src/index.ts: the data loader
pushes modules whose __table field the plugin later overwrites with the
generated data segment, and resetCompilation clears the used/usedExports
analysis metadata. The id identifies the underlying host module, so the
host rebuild outcome can be keyed on it. -/
structure Module where
  id : Nat
  __table : Src
  used : Option Bool
  usedExports : Option Bool
deriving DecidableEq, Repr

/-- Slice of the webpack Compilation object that src/index.ts touches:
the module graph, the output asset map (compilation.assets) and a count
of compilation.finish() calls (resetCompilation invokes finish). -/
structure Compilation where
  modules : List Module
  assets : List (String × Src)
  finishCount : Nat
deriving DecidableEq, Repr

/-- Result of bundle.compile() as destructured by the optimize-tree
handler: a bytecode blob and the generated data segment source. -/
structure CompileOutput where
  bytecode : Src
  data : Src
deriving DecidableEq, Repr

/-- Behaviour of the external collaborators during one session: the
outcome of the (opaque) Bundle compile step and, for each host module id,
the outcome reported by compilation.rebuildModule (none = success). -/
structure Env where
  compileResult : Except Err CompileOutput
  rebuildOutcome : Nat → Option Err

/-- Compiler modes of the plugin option type (type Mode in src/index.ts). -/
inductive Mode
  | basic
  | moduleUnification
deriving DecidableEq, Repr

/-- Reference to a compiler delegate constructor: the built-in
MUCompilerDelegate or a user supplied constructor (identified by a tag). -/
inductive DelegateKind
  | mu
  | custom (tag : Nat)
deriving DecidableEq, Repr

/-- Concrete delegate instance as constructed by getCompilerDelegateFor:
the constructor used plus the argument record it was given. -/
structure Delegate where
  kind : DelegateKind
  projectPath : String
  dataSegment : String
  heapFile : String
  builtins : Option Nat
  mainTemplateLocator : Option (String × String)
deriving DecidableEq, Repr

/-- Plugin options record (interface PluginOptions in src/index.ts);
helpers is omitted (never read by the orchestrator) and builtins is
opaque. -/
structure PluginOptions where
  output : String
  context : Option String
  mode : Option Mode
  CompilerDelegate : Option DelegateKind
  builtins : Option Nat
  mainPath : Option String
deriving DecidableEq, Repr

/-- Loader options object allocated by the static loader() helper and
later drained by the constructor, which sets its compiler field to the
new plugin instance (identified by instId). allocId identifies the
object itself. -/
structure LoaderOptions where
  allocId : Nat
  compiler : Option Nat
deriving DecidableEq, Repr

/-- Modelled from the spec: the Bundle facade (src/bundle.ts is not part
of the provided source) is an external collaborator that accumulates
registered templates and ASTs for one session and compiles on demand; a
new instance starts with no registrations. Only its constructor
arguments and accumulation behaviour are modelled. -/
structure Bundle where
  inputPath : String
  delegate : Delegate
  mainPath : Option String
  components : List (String × Src × Nat)
  asts : List (String × Nat)
deriving DecidableEq, Repr

/-- Construction of a Bundle, as performed by getBundleFor: fresh
instance, no accumulated templates or ASTs. -/
def Bundle.new (inputPath : String) (delegate : Delegate)
    (mainPath : Option String) : Bundle :=
  { inputPath := inputPath, delegate := delegate, mainPath := mainPath,
    components := [], asts := [] }

/-- Accumulation of a component template (bundle.add, called from
addComponent). -/
def Bundle.add (b : Bundle) (path : String) (template : Src)
    (scope : Nat) : Bundle :=
  { b with components := b.components ++ [(path, template, scope)] }

/-- Accumulation of an AST (bundle.addAST, called from addAST). -/
def Bundle.addAST (b : Bundle) (path : String) (ast : Nat) : Bundle :=
  { b with asts := b.asts ++ [(path, ast)] }

/-- Rendering of an optional mode the way the JS template literal in
getCompilerDelegateFor renders it (undefined for an absent mode). -/
def modeToString : Option Mode → String
  | some .basic => "basic"
  | some .moduleUnification => "module-unification"
  | none => "undefined"

/-- Delegate-constructor selection branch of getCompilerDelegateFor:
with no explicit CompilerDelegate, only mode module-unification resolves
(to MUCompilerDelegate); every other mode value, including basic and an
absent mode, hits the default switch case and throws. -/
def delegateKindOf (options : PluginOptions) : Except Err DelegateKind :=
  match options.CompilerDelegate with
  | some k => .ok k
  | none =>
      match options.mode with
      | some .moduleUnification => .ok .mu
      | m => .error ("Unrecognized compiler mode " ++ modeToString m)

/-- Main template locator derivation of getCompilerDelegateFor; the JS
truthiness test on options.mainPath treats the empty string as absent. -/
def mainLocatorOf (options : PluginOptions) : Option (String × String) :=
  match options.mainPath with
  | some mp => if mp = "" then none else some (mp, "default")
  | none => none

/-- Translation of GlimmerCompiler.getCompilerDelegateFor: select the
delegate constructor (throwing on an unrecognized mode), then invoke it
with the project path, output file names, builtins and the optional main
template locator. -/
def getCompilerDelegateFor (options : PluginOptions) (inputPath : String) :
    Except Err Delegate :=
  match delegateKindOf options with
  | .error e => .error e
  | .ok kind =>
      .ok { kind := kind
            projectPath := inputPath
            dataSegment := "table.js"
            heapFile := "templates.gbx"
            builtins := options.builtins
            mainTemplateLocator := mainLocatorOf options }

/-- Translation of GlimmerCompiler.getBundleFor: resolve the delegate,
then construct a fresh Bundle over it. -/
def getBundleFor (options : PluginOptions) (inputPath : String) :
    Except Err Bundle :=
  (getCompilerDelegateFor options inputPath).map fun delegate =>
    Bundle.new inputPath delegate options.mainPath

/-- Plugin instance state (class GlimmerCompiler): options, the captured
output file name, the data segment modules pushed by the data loader,
and the loader options drained from the process-wide list at
construction. instId identifies the instance (for the compiler field of
loader options). -/
structure GlimmerCompiler where
  instId : Nat
  options : PluginOptions
  outputFile : String
  CompilerDelegate : Option DelegateKind
  dataSegmentModules : List Module
  loaderOptions : List LoaderOptions
deriving DecidableEq, Repr

/-- Translation of the GlimmerCompiler constructor. It takes the
process-wide loaderOptions list as explicit state and returns the new
instance together with the new value of that global list: it throws if
both mode and CompilerDelegate are supplied, sets the compiler field of
every pending loader options object to the new instance, takes ownership
of that list, and resets the global list to empty. -/
def construct (instId : Nat) (options : PluginOptions)
    (globalLoaderOptions : List LoaderOptions) :
    Except Err (GlimmerCompiler × List LoaderOptions) :=
  if options.mode.isSome && options.CompilerDelegate.isSome then
    .error "You can provide a mode or a compiler delegate, but not both."
  else
    .ok ({ instId := instId
           options := options
           outputFile := options.output
           CompilerDelegate := options.CompilerDelegate
           dataSegmentModules := []
           loaderOptions :=
             globalLoaderOptions.map fun o => { o with compiler := some instId } },
         [])

/-- Translation of the static loader() helper: allocate a fresh options
object (compiler not yet set) and push it onto the process-wide list;
returns the new global list and the allocated object. -/
def loaderStatic (freshId : Nat) (globalLoaderOptions : List LoaderOptions) :
    List LoaderOptions × LoaderOptions :=
  (globalLoaderOptions ++ [{ allocId := freshId, compiler := none }],
   { allocId := freshId, compiler := none })

/-- Translation of resetCompilation: null out used and usedExports on
every module of the compilation, then call compilation.finish(). -/
def resetCompilation (c : Compilation) : Compilation :=
  { c with
    modules := c.modules.map fun m => { m with used := none, usedExports := none }
    finishCount := c.finishCount + 1 }

/-- Translation of the need-additional-seal handler body, acting on the
captured resealed flag and the compilation: if already resealed report
false; otherwise reset the compilation, set resealed and report true.
Returns (reported value, new resealed flag, new compilation). -/
def needAdditionalSealHandler (resealed : Bool) (c : Compilation) :
    Bool × Bool × Compilation :=
  if resealed then (false, resealed, c)
  else (true, true, resetCompilation c)

/-- Iterated invocation of the need-additional-seal handler within one
session, collecting the reported values. -/
def nasIterate : Nat → Bool → Compilation → List Bool × Bool × Compilation
  | 0, resealed, c => ([], resealed, c)
  | n + 1, resealed, c =>
      let step := needAdditionalSealHandler resealed c
      let rest := nasIterate n step.2.1 step.2.2
      (step.1 :: rest.1, rest.2.1, rest.2.2)

/-- Translation of populateDataSegment (the mutation part): replace the
__table source of the module with the generated data segment. -/
def populateDataSegment (m : Module) (source : Src) : Module :=
  { m with __table := source }

/-- Translation of rebuildModule: ask the host to rebuild the module;
the outcome (none = resolve, some e = reject with e) is supplied by the
host behaviour map, keyed on the module id. -/
def rebuildModule (outcome : Nat → Option Err) (m : Module) : Option Err :=
  outcome m.id

/-- Value-level semantics of Promise.all over already-determined
outcomes: succeeds only if every constituent succeeds, otherwise fails
with the first failure in list order (the temporal first failure is not
observable in this value model; list order is the faithful projection). -/
def promiseAll : List (Option Err) → Option Err
  | [] => none
  | none :: rest => promiseAll rest
  | some e :: _ => some e

/-- Result of the rewrite-and-rebuild coordinator: the mutated modules,
the rebuild requests issued (module ids, in issue order) and the
aggregate outcome. -/
structure RewriteResult where
  modules : List Module
  requests : List Nat
  outcome : Option Err
deriving Repr

/-- Translation of rewriteDataSegmentModules: for every registered data
segment module, overwrite its __table with the data segment source and
issue a rebuild request; the aggregate outcome is the Promise.all of the
individual rebuild outcomes. -/
def rewriteDataSegmentModules (outcome : Nat → Option Err)
    (modules : List Module) (source : Src) : RewriteResult :=
  { modules := modules.map fun m => populateDataSegment m source
    requests := modules.map fun m => m.id
    outcome :=
      promiseAll ((modules.map fun m => populateDataSegment m source).map
        fun m => rebuildModule outcome m) }

/-- Per-session state: the resealed closure flag, the registered data
segment modules (this.dataSegmentModules, reset and captured by the
this-compilation handler), the compilation object, the session bundle,
the hooks registered on the compilation by the optimize-tree handler
(the additional-assets hook captures the bytecode it will write; the
need-additional-seal hook is recorded as registered), plus ghost
instrumentation: the number of bundle.compile invocations and the
rebuild requests issued so far. -/
structure SessionState where
  resealed : Bool
  dataSegmentModules : List Module
  compilation : Compilation
  bundle : Bundle
  assetsHook : Option Src
  sealHookOn : Bool
  compileCount : Nat
  rebuildRequests : List Nat

/-- Translation of the this-compilation handler: reset the data segment
module list, build a fresh Bundle for the session (resolving the
delegate, which can throw), and start with an untripped resealed flag
and no hooks registered on the new compilation. -/
def thisCompilation (inst : GlimmerCompiler) (inputPath : String)
    (comp : Compilation) : Except Err (GlimmerCompiler × SessionState) :=
  (getBundleFor inst.options inputPath).map fun bundle =>
    ({ inst with dataSegmentModules := [] },
     { resealed := false
       dataSegmentModules := []
       compilation := comp
       bundle := bundle
       assetsHook := none
       sealHookOn := false
       compileCount := 0
       rebuildRequests := [] })

/-- Registration of a data segment module by the data loader
(addDataSegmentModule): appends to the session list. -/
def addDataSegmentModule (s : SessionState) (m : Module) : SessionState :=
  { s with dataSegmentModules := s.dataSegmentModules ++ [m] }

/-- Outcome reported to the host for one optimize-tree phase: the
completion callback fired without error, or the phase failed with an
error (via the callback, or via an exception thrown before the callback
could be installed, as happens when bundle.compile throws). -/
inductive PhaseOutcome
  | ok
  | err (e : Err)
deriving DecidableEq, Repr

/-- Translation of the optimize-tree handler. If the session is already
resealed, call back immediately (no compile, no rewrite, no new hooks).
Otherwise invoke bundle.compile (counted in the ghost compileCount): a
throw aborts the phase with that error before any rewrite or hook
registration; on success, rewrite and rebuild all registered data
segment modules, route the aggregate outcome into the completion
callback, and register the additional-assets hook (capturing the
bytecode) and the need-additional-seal hook on the compilation. -/
def optimizeTree (env : Env) (s : SessionState) :
    SessionState × PhaseOutcome :=
  if s.resealed then (s, .ok)
  else
    match env.compileResult with
    | .error e => ({ s with compileCount := s.compileCount + 1 }, .err e)
    | .ok out =>
        let r := rewriteDataSegmentModules env.rebuildOutcome
          s.dataSegmentModules out.data
        ({ s with
            compileCount := s.compileCount + 1
            dataSegmentModules := r.modules
            rebuildRequests := s.rebuildRequests ++ r.requests
            assetsHook := some out.bytecode
            sealHookOn := true },
         match r.outcome with
         | none => .ok
         | some e => .err e)

/-- Modelled from the spec: the host polls the need-additional-seal
predicate once per optimize phase; with no handler registered the
default is no reseal, otherwise the registered handler runs against the
captured resealed flag and the compilation. -/
def pollNeedsReseal (s : SessionState) : Bool × SessionState :=
  if s.sealHookOn then
    let step := needAdditionalSealHandler s.resealed s.compilation
    (step.1, { s with resealed := step.2.1, compilation := step.2.2 })
  else (false, s)

/-- Modelled from the spec: the host seal loop runs the optimize phase;
a phase error fails the build, otherwise the need-additional-seal
predicate is polled once and a true answer causes an additional full
optimize pass. Fuel bounds the recursion; none means fuel ran out. -/
def sealLoop : Nat → Env → SessionState → Option (SessionState × PhaseOutcome)
  | 0, _, _ => none
  | fuel + 1, env, s =>
      match optimizeTree env s with
      | (s1, .err e) => some (s1, .err e)
      | (s1, .ok) =>
          let polled := pollNeedsReseal s1
          if polled.1 then sealLoop fuel env polled.2
          else some (polled.2, .ok)

/-- Assignment into the asset map, as the additional-assets handler
performs it (compilation.assets[output] = bytecode): replace an existing
entry under the key or append a new one. -/
def setAsset : List (String × Src) → String → Src → List (String × Src)
  | [], key, v => [(key, v)]
  | p :: rest, key, v =>
      if p.1 = key then (key, v) :: rest else p :: setAsset rest key v

/-- Lookup in the asset map. -/
def lookupAsset (assets : List (String × Src)) (key : String) : Option Src :=
  (assets.find? fun p => p.1 = key).map fun p => p.2

/-- Modelled from the spec: asset writing fires the registered
additional-assets handler once after sealing completes; the handler
writes the captured bytecode under the configured output name. -/
def emitAssets (outputName : String) (s : SessionState) : SessionState :=
  match s.assetsHook with
  | some bytecode =>
      { s with compilation :=
          { s.compilation with
              assets := setAsset s.compilation.assets outputName bytecode } }
  | none => s

/-- Final result of a build session. -/
inductive BuildResult
  | success (assets : List (String × Src))
  | failure (e : Err)
deriving DecidableEq, Repr

/-- Modelled from the spec: a full build session after discovery — run
the seal loop; on phase failure the build fails with that error (no
asset writing, no further polls); on success the asset-writing phase
runs and the build succeeds with the final asset map. -/
def runBuild (fuel : Nat) (outputName : String) (env : Env)
    (s : SessionState) : Option (SessionState × BuildResult) :=
  match sealLoop fuel env s with
  | none => none
  | some (s1, .err e) => some (s1, .failure e)
  | some (s1, .ok) =>
      let s2 := emitAssets outputName s1
      some (s2, .success s2.compilation.assets)

/-- Session state right after discovery has registered the given data
segment modules into a fresh session: untripped guard, no hooks, ghost
counters at zero. -/
def mkSession (comp : Compilation) (b : Bundle) (ph : List Module) :
    SessionState :=
  { resealed := false
    dataSegmentModules := ph
    compilation := comp
    bundle := b
    assetsHook := none
    sealHookOn := false
    compileCount := 0
    rebuildRequests := [] }

/-- Session state produced by a successful compile step of the
optimize-tree handler (before the need-additional-seal poll): compile
counted, data segment modules rewritten, rebuild requests recorded, both
hooks registered. -/
def afterCompile (env : Env) (out : CompileOutput) (s : SessionState) :
    SessionState :=
  { s with
      compileCount := s.compileCount + 1
      dataSegmentModules :=
        (rewriteDataSegmentModules env.rebuildOutcome s.dataSegmentModules
          out.data).modules
      rebuildRequests := s.rebuildRequests ++
        (rewriteDataSegmentModules env.rebuildOutcome s.dataSegmentModules
          out.data).requests
      assetsHook := some out.bytecode
      sealHookOn := true }

/-- Example module rebuilt successfully in the example environments. -/
def modAEx : Module :=
  { id := 1, __table := "placeholder-a", used := some true, usedExports := some false }

/-- Example module whose rebuild fails in the failing example environment. -/
def modBEx : Module :=
  { id := 2, __table := "placeholder-b", used := some true, usedExports := some true }

/-- Example compilation with two modules, no assets, not yet finished. -/
def compEx : Compilation :=
  { modules := [modAEx, modBEx], assets := [], finishCount := 0 }

/-- Example delegate as resolved for mode module-unification at project
path proj. -/
def delegateProjEx : Delegate :=
  { kind := .mu, projectPath := "proj", dataSegment := "table.js",
    heapFile := "templates.gbx", builtins := none, mainTemplateLocator := none }

/-- Example fresh bundle. -/
def bundleEx : Bundle := Bundle.new "proj" delegateProjEx none

/-- Example compile output. -/
def outEx : CompileOutput := { bytecode := "GBX-BYTECODE", data := "var data = 1;" }

/-- Example environment where compilation and every rebuild succeed. -/
def envOkEx : Env :=
  { compileResult := .ok outEx, rebuildOutcome := fun _ => none }

/-- Example environment where the rebuild of module id 2 fails. -/
def envRebuildFailEx : Env :=
  { compileResult := .ok outEx,
    rebuildOutcome := fun i => if i = 2 then some "boom" else none }

/-- Example environment where bundle.compile throws. -/
def envCompileFailEx : Env :=
  { compileResult := .error "compile exploded", rebuildOutcome := fun _ => none }

/-- Example options selecting the built-in module-unification mode. -/
def optsMUEx : PluginOptions :=
  { output := "templates.gbx", context := none, mode := some .moduleUnification,
    CompilerDelegate := none, builtins := none, mainPath := none }

/-- Example options supplying both a mode and a delegate constructor. -/
def optsBothEx : PluginOptions := { optsMUEx with CompilerDelegate := some (.custom 7) }

/-- Example options selecting the nominally accepted basic mode. -/
def optsBasicEx : PluginOptions := { optsMUEx with mode := some .basic }

/-- Example options with no mode and no delegate. -/
def optsNoModeEx : PluginOptions := { optsMUEx with mode := none }

/-- Example plugin instance configured for module-unification. -/
def instMUEx : GlimmerCompiler :=
  { instId := 0, options := optsMUEx, outputFile := "templates.gbx",
    CompilerDelegate := none, dataSegmentModules := [modAEx], loaderOptions := [] }

/-- Example plugin instance configured with the basic mode. -/
def instBasicEx : GlimmerCompiler :=
  { instMUEx with options := optsBasicEx }

/-- Plugin instance state expected after the example session start. -/
def instAfterEx : GlimmerCompiler := { instMUEx with dataSegmentModules := [] }

/-- Session state expected after the example session start. -/
def freshSessionEx : SessionState :=
  mkSession compEx (Bundle.new "proj" delegateProjEx none) []

/-- Example session state whose reseal guard is already tripped. -/
def sealedSessionEx : SessionState :=
  { mkSession compEx bundleEx [] with resealed := true }

/-- Example process-wide loader options list after two static loader calls. -/
def gEx : List LoaderOptions := (loaderStatic 11 (loaderStatic 10 []).1).1

/-- Plugin instance expected from draining the example loader options. -/
def pluginDrainedEx : GlimmerCompiler :=
  { instId := 5, options := optsMUEx, outputFile := "templates.gbx",
    CompilerDelegate := none, dataSegmentModules := [],
    loaderOptions := [{ allocId := 10, compiler := some 5 },
                      { allocId := 11, compiler := some 5 }] }

theorem promiseAll_eq_none_iff (l : List (Option Err)) :
    promiseAll l = none ↔ ∀ x ∈ l, x = none := by
  induction l with
  | nil => simp [promiseAll]
  | cons x rest ih => cases x <;> simp [promiseAll, ih]

theorem promiseAll_eq_some_mem (l : List (Option Err)) (e : Err)
    (h : promiseAll l = some e) : some e ∈ l := by
  induction l with
  | nil => simp [promiseAll] at h
  | cons x rest ih =>
      cases x with
      | none =>
          simp only [promiseAll] at h
          exact List.mem_cons_of_mem _ (ih h)
      | some e2 =>
          simp only [promiseAll, Option.some.injEq] at h
          subst h
          exact List.mem_cons_self _ _

theorem rewrite_outcome (o : Nat → Option Err) (ph : List Module) (d : Src) :
    (rewriteDataSegmentModules o ph d).outcome =
      promiseAll (ph.map fun m => o m.id) := by
  simp only [rewriteDataSegmentModules, List.map_map]
  rfl

theorem lookupAsset_setAsset (a : List (String × Src)) (k : String) (v : Src) :
    lookupAsset (setAsset a k v) k = some v := by
  induction a with
  | nil => simp [setAsset, lookupAsset, List.find?]
  | cons p rest ih =>
      by_cases h : p.1 = k
      · simp [setAsset, lookupAsset, List.find?, h]
      · simp only [setAsset, if_neg h]
        simpa [lookupAsset, List.find?, h] using ih

theorem nasIterate_tripped (n : Nat) (c : Compilation) :
    nasIterate n true c = (List.replicate n false, true, c) := by
  induction n with
  | zero => simp [nasIterate]
  | succ k ih => simp [nasIterate, needAdditionalSealHandler, ih, List.replicate_succ]

theorem optimizeTree_resealed (env : Env) (s : SessionState)
    (h : s.resealed = true) : optimizeTree env s = (s, .ok) := by
  simp [optimizeTree, h]

theorem optimizeTree_compile_error (env : Env) (s : SessionState) (e : Err)
    (hr : s.resealed = false) (hc : env.compileResult = .error e) :
    optimizeTree env s = ({ s with compileCount := s.compileCount + 1 }, .err e) := by
  simp [optimizeTree, hr, hc]

theorem optimizeTree_compile_ok (env : Env) (s : SessionState)
    (out : CompileOutput) (hr : s.resealed = false)
    (hc : env.compileResult = .ok out) :
    optimizeTree env s =
      (afterCompile env out s,
       match (rewriteDataSegmentModules env.rebuildOutcome s.dataSegmentModules
          out.data).outcome with
       | none => .ok
       | some e => .err e) := by
  simp [optimizeTree, hr, hc, afterCompile]

theorem sealLoop_compile_error (f : Nat) (env : Env) (s : SessionState) (e : Err)
    (hr : s.resealed = false) (hc : env.compileResult = .error e) :
    sealLoop (f + 1) env s =
      some ({ s with compileCount := s.compileCount + 1 }, .err e) := by
  rw [sealLoop, optimizeTree_compile_error env s e hr hc]

theorem sealLoop_rebuild_error (f : Nat) (env : Env) (s : SessionState)
    (out : CompileOutput) (e : Err) (hr : s.resealed = false)
    (hc : env.compileResult = .ok out)
    (he : (rewriteDataSegmentModules env.rebuildOutcome s.dataSegmentModules
        out.data).outcome = some e) :
    sealLoop (f + 1) env s = some (afterCompile env out s, .err e) := by
  rw [sealLoop, optimizeTree_compile_ok env s out hr hc, he]

theorem sealLoop_success (f : Nat) (env : Env) (s : SessionState)
    (out : CompileOutput) (hr : s.resealed = false)
    (hc : env.compileResult = .ok out)
    (he : (rewriteDataSegmentModules env.rebuildOutcome s.dataSegmentModules
        out.data).outcome = none) :
    sealLoop (f + 2) env s =
      some ({ afterCompile env out s with
                resealed := true
                compilation := resetCompilation s.compilation }, .ok) := by
  have h2 : sealLoop (f + 2) env s = sealLoop (f + 1 + 1) env s := rfl
  rw [h2, sealLoop, optimizeTree_compile_ok env s out hr hc, he]
  simp only [pollNeedsReseal, afterCompile, needAdditionalSealHandler, hr]
  simp only [if_true, Bool.false_eq_true, if_false, if_true]
  rw [sealLoop]
  simp [optimizeTree, pollNeedsReseal, needAdditionalSealHandler]

/-- C1: within a build session the need-additional-seal handler returns
true exactly on its first invocation — tripping the reseal guard,
clearing the used/usedExports metadata of every module of the
compilation and calling compilation.finish once — and returns false on
every subsequent invocation; no session operation (the optimize-tree
handler, or further polls of the predicate) resets the guard to
untripped. -/
theorem reseal_guard_one_shot (n : Nat) (c : Compilation) (env : Env)
    (s : SessionState) :
    nasIterate (n + 1) false c =
      (true :: List.replicate n false, true, resetCompilation c)
    ∧ (∀ m ∈ (resetCompilation c).modules, m.used = none ∧ m.usedExports = none)
    ∧ (resetCompilation c).finishCount = c.finishCount + 1
    ∧ (optimizeTree env s).1.resealed = s.resealed
    ∧ (s.resealed = true → (pollNeedsReseal s).2.resealed = true) := by
  refine ⟨?_, ?_, rfl, ?_, ?_⟩
  · simp [nasIterate, needAdditionalSealHandler, nasIterate_tripped]
  · intro m hm
    simp only [resetCompilation, List.mem_map] at hm
    obtain ⟨a, _, rfl⟩ := hm
    exact ⟨rfl, rfl⟩
  · by_cases hr : s.resealed
    · simp [optimizeTree, hr]
    · rcases hc : env.compileResult with e | out <;>
        simp [optimizeTree, hr, hc, afterCompile]
  · intro h
    by_cases hs : s.sealHookOn <;>
      simp [pollNeedsReseal, hs, needAdditionalSealHandler, h]

/-- Witness for C1: concrete tripped session, polling keeps the guard
tripped. -/
theorem reseal_guard_one_shot_witness :
    sealedSessionEx.resealed = true ∧
      (pollNeedsReseal sealedSessionEx).2.resealed = true :=
  ⟨rfl, (reseal_guard_one_shot 2 compEx envOkEx sealedSessionEx).2.2.2.2 rfl⟩

/-- C2: an optimize-tree invocation with the reseal guard already
tripped performs no recompilation and no rewrite and immediately signals
completion (the state, including the ghost compile counter and the data
segment modules, is unchanged and the outcome is ok); an invocation with
the guard untripped invokes bundle.compile; and over a whole session
(fresh state, any environment, sufficient fuel) bundle.compile is
invoked exactly once. -/
theorem compile_exactly_once (env : Env) (s : SessionState) (fuel : Nat)
    (outputName : String) (comp : Compilation) (b : Bundle)
    (ph : List Module) :
    (s.resealed = true → optimizeTree env s = (s, .ok))
    ∧ (s.resealed = false →
        (optimizeTree env s).1.compileCount = s.compileCount + 1)
    ∧ (2 ≤ fuel →
        ∃ p, runBuild fuel outputName env (mkSession comp b ph) = some p
          ∧ p.1.compileCount = 1) := by
  refine ⟨fun h => optimizeTree_resealed env s h, ?_, ?_⟩
  · intro hr
    rcases hc : env.compileResult with e | out
    · rw [optimizeTree_compile_error env s e hr hc]
    · rw [optimizeTree_compile_ok env s out hr hc]
      rfl
  · intro hf
    obtain ⟨f, rfl⟩ : ∃ f, fuel = f + 2 := ⟨fuel - 2, by omega⟩
    rcases hc : env.compileResult with e | out
    · have hrun : runBuild (f + 2) outputName env (mkSession comp b ph) =
          some ({ mkSession comp b ph with compileCount := 1 }, .failure e) := by
        unfold runBuild
        rw [show f + 2 = f + 1 + 1 from rfl,
          sealLoop_compile_error (f + 1) env (mkSession comp b ph) e rfl hc]
        rfl
      exact ⟨_, hrun, rfl⟩
    · rcases he : (rewriteDataSegmentModules env.rebuildOutcome
          (mkSession comp b ph).dataSegmentModules out.data).outcome with _ | e
      · have hrun : runBuild (f + 2) outputName env (mkSession comp b ph) =
            some (emitAssets outputName
              { afterCompile env out (mkSession comp b ph) with
                  resealed := true
                  compilation := resetCompilation comp },
              .success (emitAssets outputName
                { afterCompile env out (mkSession comp b ph) with
                    resealed := true
                    compilation := resetCompilation comp }).compilation.assets) := by
          unfold runBuild
          rw [sealLoop_success f env (mkSession comp b ph) out rfl hc he]
          rfl
        exact ⟨_, hrun, rfl⟩
      · have hrun : runBuild (f + 2) outputName env (mkSession comp b ph) =
            some (afterCompile env out (mkSession comp b ph), .failure e) := by
          unfold runBuild
          rw [show f + 2 = f + 1 + 1 from rfl,
            sealLoop_rebuild_error (f + 1) env (mkSession comp b ph) out e rfl hc he]
        exact ⟨_, hrun, rfl⟩

/-- Witness for C2: tripped session is a no-op with ok outcome, and a
concrete successful session compiles exactly once. -/
theorem compile_exactly_once_witness :
    optimizeTree envOkEx sealedSessionEx = (sealedSessionEx, .ok)
    ∧ ∃ p, runBuild 2 "templates.gbx" envOkEx
        (mkSession compEx bundleEx [modAEx]) = some p
      ∧ p.1.compileCount = 1 :=
  ⟨(compile_exactly_once envOkEx sealedSessionEx 2 "templates.gbx" compEx
      bundleEx [modAEx]).1 rfl,
   (compile_exactly_once envOkEx sealedSessionEx 2 "templates.gbx" compEx
      bundleEx [modAEx]).2.2 (Nat.le_refl 2)⟩

/-- C3: the this-compilation handler resets all per-session state — the
new session has an empty data segment module list (also on the
instance), a fresh Bundle with no accumulated templates or ASTs, an
untripped reseal guard, no registered hooks and zeroed ghost
instrumentation — regardless of anything registered in a prior
session (the instance is universally quantified). -/
theorem session_reset_isolated (inst : GlimmerCompiler) (inputPath : String)
    (comp : Compilation) (inst2 : GlimmerCompiler) (s : SessionState)
    (h : thisCompilation inst inputPath comp = .ok (inst2, s)) :
    s.resealed = false ∧ s.dataSegmentModules = []
    ∧ s.bundle.components = [] ∧ s.bundle.asts = []
    ∧ s.assetsHook = none ∧ s.sealHookOn = false
    ∧ s.compileCount = 0 ∧ s.rebuildRequests = []
    ∧ inst2.dataSegmentModules = [] := by
  rcases hd : getCompilerDelegateFor inst.options inputPath with e | d
  · simp [thisCompilation, getBundleFor, hd, Except.map] at h
  · simp only [thisCompilation, getBundleFor, hd, Except.map,
      Except.ok.injEq, Prod.mk.injEq] at h
    obtain ⟨hi, hs⟩ := h
    subst hs
    refine ⟨rfl, rfl, rfl, rfl, rfl, rfl, rfl, rfl, ?_⟩
    rw [← hi]

/-- Witness for C3: concrete session start from an instance that still
holds a data segment module from a previous session. -/
theorem session_reset_isolated_witness :
    freshSessionEx.resealed = false ∧ freshSessionEx.dataSegmentModules = []
    ∧ freshSessionEx.bundle.components = [] ∧ freshSessionEx.bundle.asts = []
    ∧ freshSessionEx.assetsHook = none ∧ freshSessionEx.sealHookOn = false
    ∧ freshSessionEx.compileCount = 0 ∧ freshSessionEx.rebuildRequests = []
    ∧ instAfterEx.dataSegmentModules = [] :=
  session_reset_isolated instMUEx "proj" compEx instAfterEx freshSessionEx rfl

/-- C4: for every list of registered placeholders and every data segment
source, rewriteDataSegmentModules overwrites the __table of each entry
(duplicates included) with that source, issues exactly one rebuild
request per entry, and its aggregate outcome is resolved exactly when
all the individual rebuilds succeed; with no placeholders it completes
successfully with no rebuild requests. -/
theorem rewrite_and_rebuild_all (o : Nat → Option Err) (modules : List Module)
    (source : Src) :
    (rewriteDataSegmentModules o modules source).modules =
        (modules.map fun m => populateDataSegment m source)
    ∧ (∀ m ∈ (rewriteDataSegmentModules o modules source).modules,
        m.__table = source)
    ∧ (rewriteDataSegmentModules o modules source).requests =
        (modules.map fun m => m.id)
    ∧ (rewriteDataSegmentModules o modules source).requests.length =
        modules.length
    ∧ ((rewriteDataSegmentModules o modules source).outcome = none ↔
        ∀ m ∈ modules, o m.id = none)
    ∧ rewriteDataSegmentModules o [] source =
        { modules := [], requests := [], outcome := none } := by
  refine ⟨rfl, ?_, rfl, by simp [rewriteDataSegmentModules], ?_, rfl⟩
  · intro m hm
    simp only [rewriteDataSegmentModules, List.mem_map] at hm
    obtain ⟨a, _, rfl⟩ := hm
    rfl
  · rw [rewrite_outcome, promiseAll_eq_none_iff]
    simp

/-- Witness for C4: a concrete rewritten placeholder carries the data
segment source. -/
theorem rewrite_and_rebuild_all_witness :
    populateDataSegment modAEx "var data = 1;" ∈
        (rewriteDataSegmentModules envOkEx.rebuildOutcome [modAEx, modBEx]
          "var data = 1;").modules
    ∧ (populateDataSegment modAEx "var data = 1;").__table = "var data = 1;" :=
  ⟨by decide,
   (rewrite_and_rebuild_all envOkEx.rebuildOutcome [modAEx, modBEx]
      "var data = 1;").2.1 _ (by decide)⟩

/-- C5: if the rebuild of any placeholder fails, the aggregate rebuild
outcome is an error e that came from the rebuild of one of the
placeholders (the first failure in issue order), the optimize phase and
with it the build fail with exactly that error, no reseal is requested
(the guard stays untripped and compilation.finish is never invoked) and
no bytecode asset is emitted (the compilation object, asset map
included, is untouched). -/
theorem rebuild_failure_fails_build (fuel : Nat) (outputName : String)
    (env : Env) (comp : Compilation) (b : Bundle) (ph : List Module)
    (out : CompileOutput) (e : Err) (hf : 1 ≤ fuel)
    (hc : env.compileResult = .ok out)
    (he : promiseAll (ph.map fun m => env.rebuildOutcome m.id) = some e) :
    (∃ m ∈ ph, env.rebuildOutcome m.id = some e)
    ∧ ∃ s1, runBuild fuel outputName env (mkSession comp b ph) =
          some (s1, .failure e)
        ∧ s1.resealed = false
        ∧ s1.compilation = comp
        ∧ s1.compilation.finishCount = comp.finishCount
        ∧ s1.compilation.assets = comp.assets := by
  constructor
  · have hm := promiseAll_eq_some_mem _ e he
    simp only [List.mem_map] at hm
    obtain ⟨m, hm1, hm2⟩ := hm
    exact ⟨m, hm1, hm2⟩
  · obtain ⟨f, rfl⟩ : ∃ f, fuel = f + 1 := ⟨fuel - 1, by omega⟩
    have he2 : (rewriteDataSegmentModules env.rebuildOutcome
        (mkSession comp b ph).dataSegmentModules out.data).outcome = some e := by
      rw [rewrite_outcome]; exact he
    have hrun : runBuild (f + 1) outputName env (mkSession comp b ph) =
        some (afterCompile env out (mkSession comp b ph), .failure e) := by
      unfold runBuild
      rw [sealLoop_rebuild_error f env (mkSession comp b ph) out e rfl hc he2]
    exact ⟨_, hrun, rfl, rfl, rfl, rfl⟩

/-- Witness for C5: a concrete session whose second placeholder fails to
rebuild. -/
theorem rebuild_failure_fails_build_witness :
    (∃ m ∈ [modAEx, modBEx], envRebuildFailEx.rebuildOutcome m.id = some "boom")
    ∧ ∃ s1, runBuild 1 "templates.gbx" envRebuildFailEx
          (mkSession compEx bundleEx [modAEx, modBEx]) = some (s1, .failure "boom")
        ∧ s1.resealed = false
        ∧ s1.compilation = compEx
        ∧ s1.compilation.finishCount = compEx.finishCount
        ∧ s1.compilation.assets = compEx.assets :=
  rebuild_failure_fails_build 1 "templates.gbx" envRebuildFailEx compEx bundleEx
    [modAEx, modBEx] outEx "boom" (Nat.le_refl 1) rfl rfl

/-- C6: configuration errors are raised before any template compilation.
Supplying both mode and CompilerDelegate throws synchronously at
construction; with no explicit delegate, an unrecognized mode string or
an absent mode (no default exists) makes session setup — the
this-compilation handler, which resolves the delegate — throw, so no
session state is produced and the only operation that invokes
bundle.compile (the optimize-tree handler) can never run. -/
theorem config_errors_before_compile :
    (∀ (instId : Nat) (opts : PluginOptions) (g : List LoaderOptions),
        opts.mode.isSome = true → opts.CompilerDelegate.isSome = true →
        construct instId opts g =
          .error "You can provide a mode or a compiler delegate, but not both.")
    ∧ (∀ (inst : GlimmerCompiler) (inputPath : String) (comp : Compilation),
        inst.options.CompilerDelegate = none →
        inst.options.mode ≠ some Mode.moduleUnification →
        thisCompilation inst inputPath comp =
          .error ("Unrecognized compiler mode " ++ modeToString inst.options.mode)) := by
  constructor
  · intro instId opts g h1 h2
    simp [construct, h1, h2]
  · intro inst inputPath comp h1 h2
    rcases hm : inst.options.mode with _ | m
    · simp [thisCompilation, getBundleFor, getCompilerDelegateFor,
        delegateKindOf, h1, hm, Except.map]
    · cases m
      · simp [thisCompilation, getBundleFor, getCompilerDelegateFor,
          delegateKindOf, h1, hm, Except.map]
      · exact absurd hm h2

/-- Witness for C6: both options supplied throws at construction, and
the basic mode throws at session setup. -/
theorem config_errors_before_compile_witness :
    construct 0 optsBothEx [] =
      .error "You can provide a mode or a compiler delegate, but not both."
    ∧ thisCompilation instBasicEx "proj" compEx =
      .error ("Unrecognized compiler mode " ++ modeToString instBasicEx.options.mode) :=
  ⟨config_errors_before_compile.1 0 optsBothEx [] rfl rfl,
   config_errors_before_compile.2 instBasicEx "proj" compEx rfl (by decide)⟩

/-- C7: if bundle.compile throws, the optimize phase — and with it the
build — fails with exactly that error, and neither the placeholder
rewrite nor the reseal request proceeds: the data segment modules keep
their original sources, no rebuild request is issued, neither the
additional-assets hook nor the need-additional-seal hook is registered,
the guard stays untripped and the compilation (asset map and finish
count included) is unchanged. -/
theorem compile_failure_aborts (fuel : Nat) (outputName : String) (env : Env)
    (comp : Compilation) (b : Bundle) (ph : List Module) (e : Err)
    (hf : 1 ≤ fuel) (hc : env.compileResult = .error e) :
    ∃ s1, runBuild fuel outputName env (mkSession comp b ph) =
          some (s1, .failure e)
      ∧ s1.dataSegmentModules = ph
      ∧ s1.rebuildRequests = []
      ∧ s1.assetsHook = none
      ∧ s1.sealHookOn = false
      ∧ s1.resealed = false
      ∧ s1.compilation = comp := by
  obtain ⟨f, rfl⟩ : ∃ f, fuel = f + 1 := ⟨fuel - 1, by omega⟩
  have hrun : runBuild (f + 1) outputName env (mkSession comp b ph) =
      some ({ mkSession comp b ph with compileCount := 1 }, .failure e) := by
    unfold runBuild
    rw [sealLoop_compile_error f env (mkSession comp b ph) e rfl hc]
    rfl
  exact ⟨_, hrun, rfl, rfl, rfl, rfl, rfl, rfl⟩

/-- Witness for C7: a concrete session whose compile step throws. -/
theorem compile_failure_aborts_witness :
    ∃ s1, runBuild 1 "templates.gbx" envCompileFailEx
          (mkSession compEx bundleEx [modAEx]) = some (s1, .failure "compile exploded")
      ∧ s1.dataSegmentModules = [modAEx]
      ∧ s1.rebuildRequests = []
      ∧ s1.assetsHook = none
      ∧ s1.sealHookOn = false
      ∧ s1.resealed = false
      ∧ s1.compilation = compEx :=
  compile_failure_aborts 1 "templates.gbx" envCompileFailEx compEx bundleEx
    [modAEx] "compile exploded" (Nat.le_refl 1) rfl

/-- C8: for a successful build the final asset map is the prior map with
exactly one write under the configured output name, whose content is the
bytecode produced by the compile step of this session (so with no prior
assets the map is exactly that single entry); the additional-assets hook
holds that bytecode and was registered only on the compiling pass — an
optimize-tree invocation on a resealed state registers nothing and
changes nothing. -/
theorem bytecode_asset_emitted (fuel : Nat) (outputName : String) (env : Env)
    (comp : Compilation) (b : Bundle) (ph : List Module) (out : CompileOutput)
    (hf : 2 ≤ fuel) (hc : env.compileResult = .ok out)
    (hrb : promiseAll (ph.map fun m => env.rebuildOutcome m.id) = none) :
    ∃ s2, runBuild fuel outputName env (mkSession comp b ph) =
          some (s2, .success s2.compilation.assets)
      ∧ s2.compilation.assets = setAsset comp.assets outputName out.bytecode
      ∧ lookupAsset s2.compilation.assets outputName = some out.bytecode
      ∧ (comp.assets = [] →
          s2.compilation.assets = [(outputName, out.bytecode)])
      ∧ s2.assetsHook = some out.bytecode
      ∧ (∀ t : SessionState, t.resealed = true → optimizeTree env t = (t, .ok)) := by
  obtain ⟨f, rfl⟩ : ∃ f, fuel = f + 2 := ⟨fuel - 2, by omega⟩
  have he : (rewriteDataSegmentModules env.rebuildOutcome
      (mkSession comp b ph).dataSegmentModules out.data).outcome = none := by
    rw [rewrite_outcome]; exact hrb
  have hrun : runBuild (f + 2) outputName env (mkSession comp b ph) =
      some (emitAssets outputName
          { afterCompile env out (mkSession comp b ph) with
              resealed := true
              compilation := resetCompilation (mkSession comp b ph).compilation },
        .success (emitAssets outputName
          { afterCompile env out (mkSession comp b ph) with
              resealed := true
              compilation := resetCompilation (mkSession comp b ph).compilation
          }).compilation.assets) := by
    unfold runBuild
    rw [sealLoop_success f env (mkSession comp b ph) out rfl hc he]
  refine ⟨_, hrun, rfl,
    lookupAsset_setAsset comp.assets outputName out.bytecode, ?_, rfl,
    fun t ht => optimizeTree_resealed env t ht⟩
  intro h
  show setAsset comp.assets outputName out.bytecode = [(outputName, out.bytecode)]
  rw [h]
  rfl

/-- Witness for C8: a concrete successful session emits the bytecode
under the configured name. -/
theorem bytecode_asset_emitted_witness :
    ∃ s2, runBuild 2 "templates.gbx" envOkEx
          (mkSession compEx bundleEx [modAEx, modBEx]) =
          some (s2, .success s2.compilation.assets)
      ∧ s2.compilation.assets = setAsset compEx.assets "templates.gbx" outEx.bytecode
      ∧ lookupAsset s2.compilation.assets "templates.gbx" = some outEx.bytecode
      ∧ (compEx.assets = [] →
          s2.compilation.assets = [("templates.gbx", outEx.bytecode)])
      ∧ s2.assetsHook = some outEx.bytecode
      ∧ (∀ t : SessionState, t.resealed = true → optimizeTree envOkEx t = (t, .ok)) :=
  bytecode_asset_emitted 2 "templates.gbx" envOkEx compEx bundleEx
    [modAEx, modBEx] outEx (Nat.le_refl 2) rfl rfl

/-- C9: with no explicit CompilerDelegate, delegate resolution throws
Unrecognized compiler mode for mode basic (a value the option type
nominally accepts) and for an absent mode, and in general for every mode
other than module-unification; only module-unification resolves, to the
built-in MU delegate. -/
theorem mode_resolution (opts : PluginOptions) (inputPath : String)
    (h : opts.CompilerDelegate = none) :
    (opts.mode = some Mode.basic →
        getCompilerDelegateFor opts inputPath =
          .error "Unrecognized compiler mode basic")
    ∧ (opts.mode = none →
        getCompilerDelegateFor opts inputPath =
          .error "Unrecognized compiler mode undefined")
    ∧ (opts.mode = some Mode.moduleUnification →
        ∃ d, getCompilerDelegateFor opts inputPath = .ok d
          ∧ d.kind = DelegateKind.mu)
    ∧ (opts.mode ≠ some Mode.moduleUnification →
        ∃ e, getCompilerDelegateFor opts inputPath = .error e) := by
  refine ⟨?_, ?_, ?_, ?_⟩
  · intro hm
    simp only [getCompilerDelegateFor, delegateKindOf, h, hm]
    rfl
  · intro hm
    simp only [getCompilerDelegateFor, delegateKindOf, h, hm]
    rfl
  · intro hm
    refine ⟨{ kind := DelegateKind.mu, projectPath := inputPath,
              dataSegment := "table.js", heapFile := "templates.gbx",
              builtins := opts.builtins,
              mainTemplateLocator := mainLocatorOf opts }, ?_, rfl⟩
    simp only [getCompilerDelegateFor, delegateKindOf, h, hm]
  · intro hm
    rcases hmm : opts.mode with _ | m
    · exact ⟨"Unrecognized compiler mode " ++ modeToString none,
        by simp only [getCompilerDelegateFor, delegateKindOf, h, hmm]⟩
    · cases m
      · exact ⟨"Unrecognized compiler mode " ++ modeToString (some Mode.basic),
          by simp only [getCompilerDelegateFor, delegateKindOf, h, hmm]⟩
      · exact absurd hmm hm

/-- Witness for C9 at the three concrete option values. -/
theorem mode_resolution_witness :
    getCompilerDelegateFor optsBasicEx "proj" =
        .error "Unrecognized compiler mode basic"
    ∧ getCompilerDelegateFor optsNoModeEx "proj" =
        .error "Unrecognized compiler mode undefined"
    ∧ ∃ d, getCompilerDelegateFor optsMUEx "proj" = .ok d
        ∧ d.kind = DelegateKind.mu :=
  ⟨(mode_resolution optsBasicEx "proj" rfl).1 rfl,
   (mode_resolution optsNoModeEx "proj" rfl).2.1 rfl,
   (mode_resolution optsMUEx "proj" rfl).2.2.1 rfl⟩

/-- C10: constructing a plugin instance drains the process-wide loader
options list: every pending option object (every object allocated by a
prior static loader call, which appends to that list) has its compiler
field set to the new instance, the instance takes ownership of exactly
that list, and the global list is reset to empty — so a subsequently
constructed instance observes none of the earlier loader options. -/
theorem loader_options_drained (instId : Nat) (opts : PluginOptions)
    (g : List LoaderOptions) (p : GlimmerCompiler) (g2 : List LoaderOptions)
    (h : construct instId opts g = .ok (p, g2)) :
    p.loaderOptions = (g.map fun o => { o with compiler := some instId })
    ∧ (∀ o ∈ p.loaderOptions, o.compiler = some instId)
    ∧ (∀ o ∈ g, { o with compiler := some instId } ∈ p.loaderOptions)
    ∧ g2 = []
    ∧ (∀ (fid : Nat) (g0 : List LoaderOptions),
        (loaderStatic fid g0).1 = g0 ++ [{ allocId := fid, compiler := none }])
    ∧ (∀ (instId2 : Nat) (opts2 : PluginOptions) (p2 : GlimmerCompiler)
        (g3 : List LoaderOptions),
        construct instId2 opts2 g2 = .ok (p2, g3) → p2.loaderOptions = []) := by
  by_cases hb : (opts.mode.isSome && opts.CompilerDelegate.isSome) = true
  · simp [construct, hb] at h
  · simp only [construct, hb, if_false, Bool.false_eq_true,
      Except.ok.injEq, Prod.mk.injEq] at h
    obtain ⟨hp, hg⟩ := h
    subst hg
    refine ⟨by rw [← hp], ?_, ?_, rfl, fun fid g0 => rfl, ?_⟩
    · intro o ho
      rw [← hp] at ho
      simp only [List.mem_map] at ho
      obtain ⟨a, _, rfl⟩ := ho
      rfl
    · intro o ho
      rw [← hp]
      exact List.mem_map_of_mem _ ho
    · intro instId2 opts2 p2 g3 h6
      by_cases hb2 : (opts2.mode.isSome && opts2.CompilerDelegate.isSome) = true
      · simp [construct, hb2] at h6
      · simp only [construct, hb2, if_false, Bool.false_eq_true,
          Except.ok.injEq, Prod.mk.injEq] at h6
        obtain ⟨hp2, _⟩ := h6
        rw [← hp2]
        rfl

/-- Witness for C10: two static loader calls followed by a construction
drain the global list into the instance. -/
theorem loader_options_drained_witness :
    pluginDrainedEx.loaderOptions =
        (gEx.map fun o => { o with compiler := some 5 })
    ∧ (∀ o ∈ pluginDrainedEx.loaderOptions, o.compiler = some 5)
    ∧ (∀ o ∈ gEx, { o with compiler := some 5 } ∈ pluginDrainedEx.loaderOptions)
    ∧ ([] : List LoaderOptions) = []
    ∧ (∀ (fid : Nat) (g0 : List LoaderOptions),
        (loaderStatic fid g0).1 = g0 ++ [{ allocId := fid, compiler := none }])
    ∧ (∀ (instId2 : Nat) (opts2 : PluginOptions) (p2 : GlimmerCompiler)
        (g3 : List LoaderOptions),
        construct instId2 opts2 [] = .ok (p2, g3) → p2.loaderOptions = []) :=
  loader_options_drained 5 optsMUEx gEx pluginDrainedEx [] rfl

end GlimmerPlugin
